import Mathlib

/-
Verification of the change-notification relay of the Thugtwist/web-server
repository. The repository holds three near-duplicate Express + Socket.IO
server variants: variant 1 is src/server.js lines 1-965, variant 2 is
src/server.js lines 966-2217, and a third intermediate variant is
src/unnamed/part_000. Each variant persists four entity kinds
(Inquiry, Announcement, School, Review) in MongoDB, broadcasts a typed
event to every connected socket after each successful mutation route
(broadcastToClients), and additionally watches every collection with a
MongoDB change stream whose handlers emit the same kinds of events
(setupChangeStreams). The definitions below are shallow embeddings of
those handlers; line numbers in the doc comments refer to src/server.js
unless the file part_000 is named.
-/

namespace WebServer

/-- Entity kinds persisted by the server: the four mongoose models. -/
inductive EntityKind
  | inquiry
  | announcement
  | school
  | review
deriving DecidableEq, Repr

/-- Mutation operations in the event taxonomy. -/
inductive Operation
  | created
  | updated
  | deleted
deriving DecidableEq, Repr

/-- MongoDB change-stream operation types handled by setupChangeStreams
(the switch on change.operationType). -/
inductive OpType
  | insert
  | update
  | delete
deriving DecidableEq, Repr

/-- Stored document: the Mongo object id plus named string fields. -/
structure Doc where
  oid : Nat
  fields : List (String × String)
deriving DecidableEq, Repr

/-- Reads a named field of a document, none when absent. -/
def lookupField (d : Doc) (k : String) : Option String :=
  (d.fields.find? (fun kv => kv.1 = k)).map (fun kv => kv.2)

/-- Data argument of an io.emit or broadcastToClients call: either an
identifier-only object (the deleted events pass only an id field), the
full document, or the full document with extra or overridden formatted
fields spread on top. -/
inductive Payload
  | idOnly (oid : Nat)
  | record (doc : Doc)
  | recordWith (doc : Doc) (extra : List (String × String))
deriving DecidableEq, Repr

/-- Tests whether a payload carries a full record representation. -/
def isFullRecord : Payload → Bool
  | .idOnly _ => false
  | .record _ => true
  | .recordWith _ _ => true

/-- One socket emission: event name and data argument. -/
abbrev Emit := String × Payload

/-- Event name per entity kind and operation, as built by the string
literals passed to io.emit in the source. -/
def eventName : EntityKind → Operation → String
  | .inquiry, .created => "inquiry_created"
  | .inquiry, .updated => "inquiry_updated"
  | .inquiry, .deleted => "inquiry_deleted"
  | .announcement, .created => "announcement_created"
  | .announcement, .updated => "announcement_updated"
  | .announcement, .deleted => "announcement_deleted"
  | .school, .created => "school_created"
  | .school, .updated => "school_updated"
  | .school, .deleted => "school_deleted"
  | .review, .created => "review_created"
  | .review, .updated => "review_updated"
  | .review, .deleted => "review_deleted"

/-- Runtime errors a JavaScript expression of the modelled handlers can
throw. -/
inductive JsError
  | referenceError
  | typeError
deriving DecidableEq, Repr

/-- Change-stream event: operation type, documentKey id, and the
fullDocument (meaningful for insert events). -/
structure ChangeEvent where
  optype : OpType
  docId : Nat
  fullDoc : Doc
deriving DecidableEq, Repr

/-- Server variants in the repository. -/
inductive Variant
  | v1
  | v2
  | p0
deriving DecidableEq, Repr

/-- Guarded data-URL string built by the variant 1 announcements feed
handlers (server.js:186-191 and 203-207): empty unless the image data
field is present; the content type is interpolated without its own guard,
so a missing content type renders as the string undefined. -/
def annImageUrl (d : Doc) : String :=
  match lookupField d "image.data" with
  | some data =>
      "data:" ++ ((lookupField d "image.contentType").getD "undefined")
        ++ ";base64," ++ data
  | none => ""

/-- Unconditional data-URL string built by the variant 1 POST and PUT
announcement route handlers (server.js:460 and 532). -/
def annImageUrlPost (d : Doc) : String :=
  "data:" ++ ((lookupField d "image.contentType").getD "undefined")
    ++ ";base64," ++ ((lookupField d "image.data").getD "undefined")

/-- Uploaded-file URL built from a base URL and the imageUrl field, as in
the school formatting of both variants (server.js:589, 656, 706 and the
formatImageUrl helper at server.js:1262-1264). -/
def schoolUrl (baseUrl : String) (d : Doc) : String :=
  baseUrl ++ "/uploads/" ++ ((lookupField d "imageUrl").getD "undefined")

/-- Uploaded-file URL built from the image field by the variant 2
formatImageUrl helper applied to announcements (server.js:1262-1264). -/
def annFileUrl (baseUrl : String) (d : Doc) : String :=
  baseUrl ++ "/uploads/" ++ ((lookupField d "image").getD "undefined")

/-- Evaluation of the expression process.env.BASE_URL followed by the
JavaScript or-else of a template literal reading req.protocol, at a point
where no req binding is in scope (server.js:233 and 242, inside the
schools change-stream handler). JavaScript evaluates the left operand
first and short-circuits when it is truthy; an unset or empty environment
variable is falsy, so the right operand is then evaluated and the
reference to the unbound name req throws a ReferenceError. -/
def feedBaseUrl (env : Option String) : Except JsError String :=
  match env with
  | some v => if v = "" then .error .referenceError else .ok v
  | none => .error .referenceError

/-- Variant 1 announcements change-stream handler (server.js:180-222).
The fetch argument is the resolution of the asynchronous findById started
by the update arm; a null resolution emits nothing. No arm can throw. -/
def announcementsFeedV1 (ch : ChangeEvent) (fetch : Option Doc) :
    Except JsError (List Emit) :=
  match ch.optype with
  | .insert =>
      .ok [("announcement_created",
            .recordWith ch.fullDoc [("imageUrl", annImageUrl ch.fullDoc)])]
  | .update =>
      match fetch with
      | some d =>
          .ok [("announcement_updated",
                .recordWith d [("imageUrl", annImageUrl d)])]
      | none => .ok []
  | .delete => .ok [("announcement_deleted", .idOnly ch.docId)]

/-- Variant 1 schools change-stream handler (server.js:226-253). The
insert arm and the found-update arm evaluate feedBaseUrl before emitting;
the delete arm and the null-fetch update arm do not. -/
def schoolsFeedV1 (env : Option String) (ch : ChangeEvent)
    (fetch : Option Doc) : Except JsError (List Emit) :=
  match ch.optype with
  | .insert =>
      match feedBaseUrl env with
      | .error e => .error e
      | .ok b =>
          .ok [("school_created",
                .recordWith ch.fullDoc [("imageUrl", schoolUrl b ch.fullDoc)])]
  | .update =>
      match fetch with
      | some d =>
          match feedBaseUrl env with
          | .error e => .error e
          | .ok b =>
              .ok [("school_updated",
                    .recordWith d [("imageUrl", schoolUrl b d)])]
      | none => .ok []
  | .delete => .ok [("school_deleted", .idOnly ch.docId)]

/-- Variant 1 inquiries change-stream handler (server.js:256-263): only
insert events are handled. Identical in variant 2 (server.js:1371-1378)
and part_000:347-354. -/
def inquiriesFeedV1 (ch : ChangeEvent) : Except JsError (List Emit) :=
  match ch.optype with
  | .insert => .ok [("inquiry_created", .record ch.fullDoc)]
  | _ => .ok []

/-- Variant 1 reviews change-stream handler (server.js:266-288). -/
def reviewsFeedV1 (ch : ChangeEvent) (fetch : Option Doc) :
    Except JsError (List Emit) :=
  match ch.optype with
  | .insert => .ok [("review_created", .record ch.fullDoc)]
  | .update =>
      match fetch with
      | some d => .ok [("review_updated", .record d)]
      | none => .ok []
  | .delete => .ok [("review_deleted", .idOnly ch.docId)]

/-- Variant 2 announcements change-stream handler (server.js:1325-1346),
identical in part_000:301-322: no formatting, no req reference. -/
def announcementsFeedV2 (ch : ChangeEvent) (fetch : Option Doc) :
    Except JsError (List Emit) :=
  match ch.optype with
  | .insert => .ok [("announcement_created", .record ch.fullDoc)]
  | .update =>
      match fetch with
      | some d => .ok [("announcement_updated", .record d)]
      | none => .ok []
  | .delete => .ok [("announcement_deleted", .idOnly ch.docId)]

/-- Variant 2 schools change-stream handler (server.js:1348-1369),
identical in part_000:324-345. -/
def schoolsFeedV2 (ch : ChangeEvent) (fetch : Option Doc) :
    Except JsError (List Emit) :=
  match ch.optype with
  | .insert => .ok [("school_created", .record ch.fullDoc)]
  | .update =>
      match fetch with
      | some d => .ok [("school_updated", .record d)]
      | none => .ok []
  | .delete => .ok [("school_deleted", .idOnly ch.docId)]

/-- Variant 2 reviews change-stream handler (server.js:1380-1400),
identical in part_000:356-376. -/
def reviewsFeedV2 (ch : ChangeEvent) (fetch : Option Doc) :
    Except JsError (List Emit) :=
  match ch.optype with
  | .insert => .ok [("review_created", .record ch.fullDoc)]
  | .update =>
      match fetch with
      | some d => .ok [("review_updated", .record d)]
      | none => .ok []
  | .delete => .ok [("review_deleted", .idOnly ch.docId)]

/-- Change-feed emissions per variant and kind. Variant p0 shares the
variant 2 handlers verbatim (part_000:295-382). The env argument only
reaches the variant 1 schools handler, the single feed handler that reads
the environment. -/
def feedEmits (v : Variant) (k : EntityKind) (env : Option String)
    (ch : ChangeEvent) (fetch : Option Doc) : Except JsError (List Emit) :=
  match v, k with
  | .v1, .inquiry => inquiriesFeedV1 ch
  | .v1, .announcement => announcementsFeedV1 ch fetch
  | .v1, .school => schoolsFeedV1 env ch fetch
  | .v1, .review => reviewsFeedV1 ch fetch
  | _, .inquiry => inquiriesFeedV1 ch
  | _, .announcement => announcementsFeedV2 ch fetch
  | _, .school => schoolsFeedV2 ch fetch
  | _, .review => reviewsFeedV2 ch fetch

/-- Unwraps the emissions of a handler run, an error producing none. -/
def emitsOf : Except JsError (List Emit) → List Emit
  | .ok l => l
  | .error _ => []

/-- Connected socket: its socket id and the rooms it has joined. -/
structure Client where
  sid : Nat
  rooms : List String
deriving DecidableEq, Repr

/-- Models socket.join of socket.io: adds the socket to a room. -/
def joinRoom (c : Client) (room : String) : Client :=
  { c with rooms := room :: c.rooms }

/-- Handler of the client message join_announcements in variant 2
(server.js:1428-1431) and part_000:403-406. -/
def onJoinAnnouncements (c : Client) : Client :=
  joinRoom c "announcements"

/-- Handler of the client message join_schools in variant 2
(server.js:1433-1436) and part_000:408-411. -/
def onJoinSchools (c : Client) : Client :=
  joinRoom c "schools"

/-- Handler of the client message join_reviews in variant 2
(server.js:1438-1441) and part_000:413-416. -/
def onJoinReviews (c : Client) : Client :=
  joinRoom c "reviews"

/-- Models io.emit of socket.io: the event is delivered to every connected
socket, regardless of room membership. No emission site of the repository
uses the room-scoped form io.to(room).emit. -/
def ioEmit (conns : List Client) (e : Emit) : List (Nat × Emit) :=
  conns.map (fun c => (c.sid, e))

/-- Function broadcastToClients of all three variants (server.js:318-321,
server.js:1449-1452, part_000:424-427): a bare io.emit of the event. -/
def broadcastToClients (conns : List Client) (event : String)
    (data : Payload) : List (Nat × Emit) :=
  ioEmit conns (event, data)

/-- Fan-out of a list of emissions in order: every emission is an io.emit
reaching every connected client. -/
def deliveriesFor (conns : List Client) (emits : List Emit) :
    List (Nat × Emit) :=
  emits.flatMap (ioEmit conns)

/-- Number of deliveries of an event with the given name that a socket id
receives. -/
def receivedCount (ds : List (Nat × Emit)) (sid : Nat) (name : String) :
    Nat :=
  (ds.filter (fun d => d.1 == sid && d.2.1 == name)).length

/-- Emissions triggered by one successful inquiry submission in variant 1:
the direct broadcast made by POST /api/inquiries after the save
(server.js:361) followed by the inquiries change-stream insert handler
observing the same write (server.js:260-262). No deduplication of any
form exists between the two paths. -/
def inquiryWriteEmits (doc : Doc) : List Emit :=
  [("inquiry_created", .record doc)]
    ++ emitsOf (inquiriesFeedV1 ⟨.insert, doc.oid, doc⟩)

/-- Values appearing in the connected acknowledgement payloads. -/
inductive JVal
  | str (s : String)
  | date (t : Nat)
  | socketId (sid : Nat)
deriving DecidableEq, Repr

/-- Payload of the connected acknowledgement of variant 1
(server.js:307-310): a fixed message and the server timestamp; the socket
id appears nowhere in the object literal. -/
def connectedPayloadV1 (now : Nat) : List (String × JVal) :=
  [("message", .str "Connected to real-time server"),
   ("timestamp", .date now)]

/-- Payload of the connected acknowledgement of variant 2
(server.js:1420-1425): message, timestamp, the socket id as clientId, and
the database name. -/
def connectedPayloadV2 (now sid : Nat) : List (String × JVal) :=
  [("message", .str "Connected to JBMMSI real-time server"),
   ("timestamp", .date now),
   ("clientId", .socketId sid),
   ("database", .str "jbmmsi")]

/-- Payload of the connected acknowledgement of part_000:396-400:
message, timestamp, and the socket id as clientId. -/
def connectedPayloadP0 (now sid : Nat) : List (String × JVal) :=
  [("message", .str "Connected to real-time server"),
   ("timestamp", .date now),
   ("clientId", .socketId sid)]

/-- Events a connection handler emits to the newly connected socket, per
variant: each handler performs exactly one socket.emit of connected
before installing its listeners (server.js:304-315, server.js:1416-1446,
part_000:392-421). -/
def connectionAcks (v : Variant) (now sid : Nat) :
    List (String × List (String × JVal)) :=
  match v with
  | .v1 => [("connected", connectedPayloadV1 now)]
  | .v2 => [("connected", connectedPayloadV2 now sid)]
  | .p0 => [("connected", connectedPayloadP0 now sid)]

/-- Tests whether a payload carries the socket identifier in any field. -/
def hasSocketId (p : List (String × JVal)) : Bool :=
  p.any (fun kv =>
    match kv.2 with
    | .socketId _ => true
    | _ => false)

/-- Broadcast made on the success path of each mutation route, per
variant, given the record the store operation returned. A none result
means no route of that variant broadcasts for that kind and operation:
no inquiry delete route exists in any variant, the inquiry status update
route PATCH /api/inquiries/:id/status broadcasts nothing
(server.js:1482-1500, part_000:457-475), and part_000 elides every
mutation route except POST /api/inquiries (part_000:564-565, 588-589,
619-620). The some cases transcribe, in order: POST /api/inquiries of
variant 1 (server.js:361), POST and PUT and DELETE /api/announcements of
variant 1 (server.js:458-463, 530-535, 562), POST and PUT and DELETE
/api/schools of variant 1 (server.js:652-661, 702-711, 738), POST and PUT
and DELETE /api/reviews of variant 1 (server.js:816, 858, 888), and the
corresponding routes of variant 2 (server.js:1520, 1656-1661, 1696-1701,
1719, 1804-1809, 1842-1847, 1865, 1942, 1973, 1991), and POST
/api/inquiries of part_000:495. -/
def directBroadcast (v : Variant) (k : EntityKind) (op : Operation)
    (baseUrl : String) (oid : Nat) (doc : Doc) : Option Emit :=
  match v, k, op with
  | _, .inquiry, .updated => none
  | _, .inquiry, .deleted => none
  | .v1, .inquiry, .created => some ("inquiry_created", .record doc)
  | .v1, .announcement, .created =>
      some ("announcement_created",
            .recordWith doc [("imageUrl", annImageUrlPost doc)])
  | .v1, .announcement, .updated =>
      some ("announcement_updated",
            .recordWith doc [("imageUrl", annImageUrlPost doc)])
  | .v1, .announcement, .deleted =>
      some ("announcement_deleted", .idOnly oid)
  | .v1, .school, .created =>
      some ("school_created",
            .recordWith doc [("imageUrl", schoolUrl baseUrl doc)])
  | .v1, .school, .updated =>
      some ("school_updated",
            .recordWith doc [("imageUrl", schoolUrl baseUrl doc)])
  | .v1, .school, .deleted => some ("school_deleted", .idOnly oid)
  | .v1, .review, .created => some ("review_created", .record doc)
  | .v1, .review, .updated => some ("review_updated", .record doc)
  | .v1, .review, .deleted => some ("review_deleted", .idOnly oid)
  | .v2, .inquiry, .created => some ("inquiry_created", .record doc)
  | .v2, .announcement, .created =>
      some ("announcement_created",
            .recordWith doc [("image", annFileUrl baseUrl doc)])
  | .v2, .announcement, .updated =>
      some ("announcement_updated",
            .recordWith doc [("image", annFileUrl baseUrl doc)])
  | .v2, .announcement, .deleted =>
      some ("announcement_deleted", .idOnly oid)
  | .v2, .school, .created =>
      some ("school_created",
            .recordWith doc [("imageUrl", schoolUrl baseUrl doc)])
  | .v2, .school, .updated =>
      some ("school_updated",
            .recordWith doc [("imageUrl", schoolUrl baseUrl doc)])
  | .v2, .school, .deleted => some ("school_deleted", .idOnly oid)
  | .v2, .review, .created => some ("review_created", .record doc)
  | .v2, .review, .updated => some ("review_updated", .record doc)
  | .v2, .review, .deleted => some ("review_deleted", .idOnly oid)
  | .p0, .inquiry, .created => some ("inquiry_created", .record doc)
  | .p0, _, _ => none

/-- Names of the mutation events the spec taxonomy assigns to a kind:
created, updated and deleted. -/
def mutationEventNames (k : EntityKind) : List String :=
  [eventName k .created, eventName k .updated, eventName k .deleted]

/-- Names of the mutation events some emission site of the repository can
actually produce for a kind. The inquiry collection has only a created
event: the inquiries change streams handle only inserts and neither an
inquiry delete route nor an inquiry update broadcast exists. This
characterization is proved against the handler functions below. -/
def emittableNames (k : EntityKind) : List String :=
  match k with
  | .inquiry => [eventName .inquiry .created]
  | _ => mutationEventNames k

/-- Result of one HTTP mutation route: response status and the socket
events the handler broadcast. -/
structure RouteOutcome where
  status : Nat
  events : List Emit
deriving DecidableEq, Repr

/-- Outcome of the route-specific code that runs before the store
operation: the validation checks passed, or an early 400 response was
returned, or an expression threw so the catch block answers 500. -/
inductive PreStore
  | pass
  | reject400
  | thrown
deriving DecidableEq, Repr

/-- Response status of the success path of a mutation route: 201 for the
create routes, 200 otherwise, in all variants. -/
def successStatus : Operation → Nat
  | .created => 201
  | _ => 200

/-- Common shape shared verbatim by every mutation route of the
repository (the routes listed in the doc comment of directBroadcast,
plus PATCH /api/inquiries/:id/status): any field validation runs first
and returns 400 without broadcasting; an expression that throws before or
during the awaited store operation lands in the catch block which answers
an error status without broadcasting; a null store result returns 404
without broadcasting; only the success continuation, after the awaited
store operation, calls broadcastToClients. The store argument is the
result of the awaited store operation: an error for a throw, ok none for
a null result, ok some for a committed write returning the record. -/
def runMutationRoute (v : Variant) (k : EntityKind) (op : Operation)
    (pre : PreStore) (store : Except String (Option Doc))
    (baseUrl : String) : RouteOutcome :=
  match pre with
  | .reject400 => ⟨400, []⟩
  | .thrown => ⟨500, []⟩
  | .pass =>
      match store with
      | .error _ => ⟨500, []⟩
      | .ok none => ⟨404, []⟩
      | .ok (some d) =>
          ⟨successStatus op, (directBroadcast v k op baseUrl d.oid d).toList⟩

/-- Truthiness of an optional string field of req.body under JavaScript
negation: absent and empty strings are falsy. -/
def truthyS : Option String → Bool
  | none => false
  | some s => s ≠ ""

/-- Character class of the content-type group of the data-URL regular
expression at server.js:426. -/
def ctChar (c : Char) : Bool :=
  c.isAlpha || c == '-' || c == '+' || c == '/'

/-- Match of the data-URL regular expression of server.js:426 against a
base64 image string, returning content type and data on success. The
content-type group takes everything up to the first base64 separator and
must be nonempty over its character class; the data group is the nonempty
remainder. -/
def parseDataUrl (s : String) : Option (String × String) :=
  if s.startsWith "data:" then
    match (s.drop 5).splitOn ";base64," with
    | [] => none
    | [_] => none
    | ct :: rest =>
        let data := String.intercalate ";base64," rest
        if ct ≠ "" && data ≠ "" && ct.all ctChar then some (ct, data)
        else none
  else none

/-- Image field of the announcement creation body: a base64 string or an
object with data and content-type members. -/
inductive ImageField
  | strVal (s : String)
  | objVal (data : Option String) (contentType : Option String)
deriving DecidableEq, Repr

/-- Image-data extraction of POST /api/announcements of variant 1
(server.js:421-445): a string body field must match the data-URL pattern
and an object body field must have truthy data and contentType members;
otherwise the route answers 400. -/
def imageDataOf : ImageField → Option (String × String)
  | .strVal s => parseDataUrl s
  | .objVal data ct =>
      if truthyS data && truthyS ct then
        some (ct.getD "", data.getD "")
      else none

/-- Route POST /api/announcements of variant 1 (server.js:410-477).
Validation, in source order: the four body fields must be truthy, then
the image field must yield image data, both failures answering 400 before
any store interaction; then the save runs, a throw answering 500 from the
catch block; the broadcast happens only after a successful save, with the
saved record and its unconditional data-URL field. -/
def postAnnouncementV1 (title date description : Option String)
    (image : Option ImageField) (save : Except String Doc) : RouteOutcome :=
  if !(truthyS title && truthyS date && truthyS description
        && image.isSome) then
    ⟨400, []⟩
  else
    match image.bind imageDataOf with
    | none => ⟨400, []⟩
    | some _ =>
        match save with
        | .error _ => ⟨500, []⟩
        | .ok saved =>
            ⟨201, [("announcement_created",
                    .recordWith saved
                      [("imageUrl", annImageUrlPost saved)])]⟩

/-- Route DELETE /api/announcements/:id of variant 1 (server.js:552-576).
The del argument is the awaited findByIdAndDelete: error for a throw,
ok none for a missing record (404, no broadcast), ok some for a committed
delete, after which the identifier-only broadcast runs. -/
def deleteAnnouncementV1 (del : Except String (Option Doc)) :
    RouteOutcome :=
  match del with
  | .error _ => ⟨500, []⟩
  | .ok none => ⟨404, []⟩
  | .ok (some d) => ⟨200, [("announcement_deleted", .idOnly d.oid)]⟩

/-- JavaScript evaluation of x.trim() where x was destructured from
req.body: when the field is absent x is undefined and the method call
throws a TypeError; otherwise the trimmed string results. -/
def trimJs : Option String → Except JsError String
  | none => .error .typeError
  | some s => .ok s.trim

/-- JavaScript parseInt applied to an optional body field: it never
throws; an absent field or a string without a leading integer yields NaN,
modelled as none. -/
def parseIntJs (s : Option String) : Option Int :=
  s.bind (fun t => t.toInt?)

/-- Update object handed to findByIdAndUpdate by PUT /api/schools/:id of
variant 1: trimmed name, and the uploaded filename when a file was sent. -/
structure SchoolUpdate where
  name : String
  imageUrl : Option String
deriving DecidableEq, Repr

/-- Update object handed to findByIdAndUpdate by PUT /api/reviews/:id of
variant 1: trimmed name, parsed rating, trimmed comment. -/
structure ReviewUpdate where
  name : String
  rating : Option Int
  comment : String
deriving DecidableEq, Repr

/-- Outcome of a PUT route: response status, broadcast events, and the
update object that reached findByIdAndUpdate, none when the store was
never called. -/
structure PutOutcome (α : Type) where
  status : Nat
  events : List Emit
  storeArg : Option α
deriving DecidableEq, Repr

/-- Route PUT /api/schools/:id of variant 1 (server.js:678-725). The
update object evaluates name.trim() unconditionally before the store
call, so an absent name field throws a TypeError that the catch block
answers with 500, the store never being reached; otherwise the awaited
findByIdAndUpdate result (the store argument: none for not found)
produces 404 without broadcast or the school_updated broadcast of the
updated record with its formatted URL. -/
def putSchoolV1 (name : Option String) (file : Option String)
    (baseUrl : String) (store : Option Doc) : PutOutcome SchoolUpdate :=
  match trimJs name with
  | .error _ => ⟨500, [], none⟩
  | .ok n =>
      let upd : SchoolUpdate := ⟨n, file⟩
      match store with
      | none => ⟨404, [], some upd⟩
      | some d =>
          ⟨200,
           [("school_updated",
             .recordWith d [("imageUrl", schoolUrl baseUrl d)])],
           some upd⟩

/-- Route PUT /api/reviews/:id of variant 1 (server.js:833-872). The
update object evaluates name.trim(), parseInt(rating) and comment.trim()
unconditionally, in source order, before the store call; a missing name
or comment throws a TypeError answered with 500 before the store is
reached, while parseInt never throws. -/
def putReviewV1 (name rating comment : Option String)
    (store : Option Doc) : PutOutcome ReviewUpdate :=
  match trimJs name with
  | .error _ => ⟨500, [], none⟩
  | .ok n =>
      let r := parseIntJs rating
      match trimJs comment with
      | .error _ => ⟨500, [], none⟩
      | .ok c =>
          match store with
          | none => ⟨404, [], some ⟨n, r, c⟩⟩
          | some d =>
              ⟨200, [("review_updated", .record d)], some ⟨n, r, c⟩⟩

/-- State of the change-stream update pipeline of one collection: the
update arm of the handler calls the asynchronous findById and returns
immediately (server.js:200-215 for announcements), so a notification
whose fetch has not completed yet is pending; the then-continuation runs
at completion time and emits only when the record was found. Entries are
the commit sequence numbers of the underlying updates, in the order the
change stream delivered them. -/
structure RelayState where
  pending : List Nat
  emitted : List Nat
deriving DecidableEq, Repr

/-- Event-loop occurrence in the update pipeline: a change event arrives
and the handler starts its findById, or an in-flight findById completes
with the fetched record (none when the record vanished) and the
then-continuation runs. Node constrains the completion order of
independent findById calls in no way, so a run of the pipeline is an
arbitrary interleaving of arrivals and completions. -/
inductive LoopStep
  | arrive (seq : Nat)
  | complete (seq : Nat) (doc : Option Doc)
deriving DecidableEq, Repr

/-- One event-loop step of the update pipeline: an arriving notification
becomes pending; a completion of a pending fetch removes it and emits the
updated event exactly when the record was found. -/
def loopStep (st : RelayState) : LoopStep → RelayState
  | .arrive q => ⟨st.pending ++ [q], st.emitted⟩
  | .complete q doc =>
      if q ∈ st.pending then
        ⟨st.pending.erase q,
         st.emitted ++
           (match doc with
            | some _ => [q]
            | none => [])⟩
      else st

/-- Run of the update pipeline from the empty state. -/
def runLoop (steps : List LoopStep) : RelayState :=
  steps.foldl loopStep ⟨[], []⟩

/-- Sequence numbers whose fetch completed with a found record, in
completion order. -/
def completionsOf (steps : List LoopStep) : List Nat :=
  steps.filterMap (fun s =>
    match s with
    | .complete q (some _) => some q
    | _ => none)

/-- Sample document used by the concrete counterexamples. -/
def sampleDoc : Doc :=
  ⟨5, [("name", "sample")]⟩

/-- Counting received events distributes over appended delivery lists. -/
theorem receivedCount_append (a b : List (Nat × Emit)) (sid : Nat)
    (name : String) :
    receivedCount (a ++ b) sid name =
      receivedCount a sid name + receivedCount b sid name := by
  simp [receivedCount, List.filter_append]

/-- One io.emit of an event delivers it to a socket id once per connected
client bearing that id. -/
theorem receivedCount_ioEmit (conns : List Client) (p : Payload)
    (sid : Nat) (name : String) :
    receivedCount (ioEmit conns (name, p)) sid name =
      conns.countP (fun c => c.sid == sid) := by
  induction conns with
  | nil => simp [receivedCount, ioEmit]
  | cons c cs ih =>
      simp only [receivedCount, ioEmit, List.map_cons, List.filter_cons,
        List.countP_cons] at ih ⊢
      by_cases h : c.sid == sid
      · simp [h, ih]
      · simp [h, ih]

/-- In a connection list with pairwise distinct socket ids, exactly one
entry bears the id of a member. -/
theorem countP_sid_eq_one :
    ∀ (conns : List Client) (c : Client), c ∈ conns →
      (conns.map Client.sid).Nodup →
      conns.countP (fun x => x.sid == c.sid) = 1 := by
  intro conns c
  induction conns with
  | nil => intro h; cases h
  | cons a as ih =>
      intro h hn
      rw [List.countP_cons]
      rcases List.mem_cons.mp h with rfl | hmem
      · have hz : as.countP (fun x => x.sid == c.sid) = 0 := by
          rw [List.countP_eq_zero]
          intro x hx hpx
          have hx' : x.sid = c.sid := by simpa using hpx
          have : c.sid ∈ as.map Client.sid :=
            hx' ▸ List.mem_map_of_mem Client.sid hx
          exact (List.nodup_cons.mp (by simpa using hn)).1 this
        simp [hz]
      · have hmap : (as.map Client.sid).Nodup :=
          (List.nodup_cons.mp (by simpa using hn)).2
        have ha : ¬(a.sid == c.sid) = true := by
          intro he
          have he' : a.sid = c.sid := by simpa using he
          have : c.sid ∈ as.map Client.sid :=
            List.mem_map_of_mem Client.sid hmem
          exact (List.nodup_cons.mp (by simpa using hn)).1 (he' ▸ this)
        simp [ha, ih hmem hmap]

/-- C1 counterexample: one logical inquiry write with both notification
paths firing delivers the inquiry_created event to the single subscribed
connection twice, not exactly once as the claim states — no
deduplication exists between the direct broadcast of the POST handler and
the change-stream insert handler. -/
theorem c1_single_client_receives_twice :
    receivedCount (deliveriesFor [⟨1, []⟩] (inquiryWriteEmits sampleDoc))
        1 "inquiry_created" = 2
    ∧ ¬(receivedCount
          (deliveriesFor [⟨1, []⟩] (inquiryWriteEmits sampleDoc))
          1 "inquiry_created" = 1) := by
  constructor
  · rfl
  · decide

/-- C1 amended: for one logical inquiry write after which both the direct
broadcast and the change-stream insert handler fire, every connection in
a registry with distinct socket ids receives the corresponding
inquiry_created event exactly twice — once per notification path. -/
theorem c1_dual_path_delivers_exactly_twice :
    ∀ (conns : List Client) (doc : Doc) (c : Client),
      c ∈ conns → (conns.map Client.sid).Nodup →
      receivedCount (deliveriesFor conns (inquiryWriteEmits doc))
        c.sid "inquiry_created" = 2 := by
  intro conns doc c hc hn
  have hd : deliveriesFor conns (inquiryWriteEmits doc) =
      ioEmit conns ("inquiry_created", .record doc)
        ++ ioEmit conns ("inquiry_created", .record doc) := by
    simp [deliveriesFor, inquiryWriteEmits, inquiriesFeedV1, emitsOf]
  rw [hd, receivedCount_append, receivedCount_ioEmit,
    countP_sid_eq_one conns c hc hn]

/-- C1 witness: the amended theorem applied to a concrete registry of two
distinct connections and the sample document. -/
theorem c1_dual_path_delivers_exactly_twice_witness :
    receivedCount
      (deliveriesFor [⟨2, []⟩, ⟨3, []⟩] (inquiryWriteEmits sampleDoc))
      3 "inquiry_created" = 2 :=
  c1_dual_path_delivers_exactly_twice [⟨2, []⟩, ⟨3, []⟩] sampleDoc
    ⟨3, []⟩ (by simp) (by decide)

/-- C2 counterexample: a connection that has joined only the schools room
through the join_schools handler still receives an announcement_created
broadcast, because broadcastToClients is a bare io.emit to every
connected socket — room membership never restricts delivery. -/
theorem c2_schools_subscriber_receives_announcement :
    (onJoinSchools ⟨1, []⟩).rooms = ["schools"]
    ∧ (1, ("announcement_created", Payload.record sampleDoc)) ∈
        broadcastToClients [onJoinSchools ⟨1, []⟩]
          "announcement_created" (Payload.record sampleDoc) := by
  decide

/-- C2 amended: room joins have no effect on delivery. Every connection
in the registry receives every broadcast event, whatever rooms it has
joined, and only connected socket ids receive anything; in particular a
connection with no subscription receives all event kinds, which is the
half of the claim the code satisfies. -/
theorem c2_broadcast_ignores_rooms :
    (∀ (conns : List Client) (c : Client) (e : Emit),
        c ∈ conns → (c.sid, e) ∈ ioEmit conns e)
    ∧ (∀ (conns : List Client) (e : Emit) (sid : Nat) (f : Emit),
        (sid, f) ∈ ioEmit conns e →
          f = e ∧ sid ∈ conns.map Client.sid)
    ∧ (∀ (conns : List Client) (e : Emit),
        ioEmit (conns.map onJoinSchools) e = ioEmit conns e)
    ∧ (∀ (conns : List Client) (e : Emit),
        ioEmit (conns.map onJoinAnnouncements) e = ioEmit conns e)
    ∧ (∀ (conns : List Client) (e : Emit),
        ioEmit (conns.map onJoinReviews) e = ioEmit conns e) := by
  refine ⟨?_, ?_, ?_, ?_, ?_⟩
  · intro conns c e hc
    exact List.mem_map_of_mem (fun c => (c.sid, e)) hc
  · intro conns e sid f hmem
    obtain ⟨c, hc, hce⟩ := List.mem_map.mp hmem
    obtain ⟨h1, h2⟩ := Prod.mk.injEq .. ▸ hce
    exact ⟨h2.symm ▸ rfl, h1 ▸ List.mem_map_of_mem Client.sid hc⟩
  · intro conns e
    simp [ioEmit, List.map_map, Function.comp, onJoinSchools, joinRoom]
  · intro conns e
    simp [ioEmit, List.map_map, Function.comp, onJoinAnnouncements,
      joinRoom]
  · intro conns e
    simp [ioEmit, List.map_map, Function.comp, onJoinReviews, joinRoom]

/-- C2 witness: the amended theorem applied to a concrete registry with
one unsubscribed connection. -/
theorem c2_broadcast_ignores_rooms_witness :
    (4, ("review_created", Payload.record sampleDoc)) ∈
      ioEmit [⟨4, []⟩] ("review_created", Payload.record sampleDoc) :=
  c2_broadcast_ignores_rooms.1 [⟨4, []⟩] ⟨4, []⟩
    ("review_created", Payload.record sampleDoc) (by simp)

/-- Emissions of a pipeline run extend the initial emissions by a list
that follows the fetch-completion order of the run. -/
theorem loop_emitted_follows_completions :
    ∀ (steps : List LoopStep) (st : RelayState),
      ∃ u, (steps.foldl loopStep st).emitted = st.emitted ++ u
        ∧ List.Sublist u (completionsOf steps) := by
  intro steps
  induction steps with
  | nil =>
      intro st
      exact ⟨[], by simp, by simp [completionsOf]⟩
  | cons s rest ih =>
      intro st
      obtain ⟨u, hu, hsub⟩ := ih (loopStep st s)
      cases s with
      | arrive q =>
          refine ⟨u, ?_, ?_⟩
          · simpa [loopStep] using hu
          · simpa [completionsOf] using hsub
      | complete q doc =>
          cases doc with
          | none =>
              refine ⟨u, ?_, ?_⟩
              · by_cases hq : q ∈ st.pending <;>
                  simpa [loopStep, hq] using hu
              · simpa [completionsOf] using hsub
          | some d =>
              by_cases hq : q ∈ st.pending
              · have hstep : loopStep st (LoopStep.complete q (some d)) =
                    ⟨st.pending.erase q, st.emitted ++ [q]⟩ := by
                  simp [loopStep, hq]
                rw [hstep] at hu
                refine ⟨q :: u, ?_, ?_⟩
                · rw [List.foldl_cons, hstep, hu]
                  simp
                · simpa [completionsOf] using List.Sublist.cons₂ q hsub
              · have hstep : loopStep st (LoopStep.complete q (some d)) =
                    st := by
                  simp [loopStep, hq]
                rw [hstep] at hu
                refine ⟨u, ?_, ?_⟩
                · rw [List.foldl_cons, hstep]
                  exact hu
                · simpa [completionsOf] using List.Sublist.cons q hsub

/-- Arrivals only append to the pending fetches. -/
theorem runLoop_arrivals :
    ∀ (qs : List Nat) (st : RelayState),
      (qs.map LoopStep.arrive).foldl loopStep st =
        ⟨st.pending ++ qs, st.emitted⟩ := by
  intro qs
  induction qs with
  | nil => intro st; cases st; simp
  | cons q rest ih =>
      intro st
      simp only [List.map_cons, List.foldl_cons, loopStep]
      rw [ih]
      simp

/-- Completions of found fetches processed in exactly the pending order
emit in that same order and drain the pending list. -/
theorem runLoop_completions_in_order :
    ∀ (qs e : List Nat) (d : Doc),
      ((qs.map (fun q => LoopStep.complete q (some d))).foldl loopStep
          ⟨qs, e⟩) = ⟨[], e ++ qs⟩ := by
  intro qs
  induction qs with
  | nil => intro e d; simp
  | cons q rest ih =>
      intro e d
      simp only [List.map_cons, List.foldl_cons, loopStep,
        List.mem_cons, true_or, if_pos, List.erase_cons_head]
      rw [ih (e ++ [q]) d]
      simp

/-- C3 counterexample: two updates of the same record committed in the
order 1 then 2 arrive in commit order, but the asynchronous findById of
the second completes first; the pipeline then emits the updated events in
the order 2 then 1 — out of commit order, refuting the claim that
updated events for one id are never delivered out of commit order. -/
theorem c3_updates_delivered_out_of_commit_order :
    (runLoop [.arrive 1, .arrive 2, .complete 2 (some sampleDoc),
        .complete 1 (some sampleDoc)]).emitted = [2, 1]
    ∧ ([2, 1] : List Nat) ≠ [1, 2] := by
  constructor
  · decide
  · decide

/-- C3 amended: emission order equals the completion order of the
asynchronous per-notification findById calls, which the code does not tie
to commit order by any sequence token: the emitted sequence is always a
subsequence of the fetch-completion sequence, and commit order is
preserved exactly when completions happen to occur in arrival order. -/
theorem c3_delivery_order_is_completion_order :
    (∀ steps : List LoopStep,
        List.Sublist (runLoop steps).emitted (completionsOf steps))
    ∧ (∀ (qs : List Nat) (d : Doc),
        (runLoop (qs.map LoopStep.arrive
            ++ qs.map (fun q => LoopStep.complete q (some d)))).emitted
          = qs) := by
  constructor
  · intro steps
    obtain ⟨u, hu, hsub⟩ :=
      loop_emitted_follows_completions steps ⟨[], []⟩
    unfold runLoop
    rw [hu]
    simpa using hsub
  · intro qs d
    unfold runLoop
    rw [List.foldl_append, runLoop_arrivals qs ⟨[], []⟩]
    simpa using congrArg RelayState.emitted
      (runLoop_completions_in_order qs [] d)

/-- C4: an update notification whose findById resolves to null — the
record vanished between the notification and the fetch — produces no
updated event and no error: the then-continuations of the variant 1
announcements and reviews update arms test the fetched value and have no
throwing expression, so the handler result is an empty ok emission
list. -/
theorem c4_vanished_record_is_dropped_silently :
    (∀ ch : ChangeEvent, ch.optype = .update →
        announcementsFeedV1 ch none = .ok [])
    ∧ (∀ ch : ChangeEvent, ch.optype = .update →
        reviewsFeedV1 ch none = .ok []) := by
  constructor
  · intro ch h
    obtain ⟨t, i, d⟩ := ch
    have ht : t = .update := h
    subst ht
    rfl
  · intro ch h
    obtain ⟨t, i, d⟩ := ch
    have ht : t = .update := h
    subst ht
    rfl

/-- C4 witness: the theorem applied to a concrete update notification for
the sample document id with a null fetch. -/
theorem c4_vanished_record_is_dropped_silently_witness :
    announcementsFeedV1 ⟨.update, 5, sampleDoc⟩ none = .ok []
    ∧ reviewsFeedV1 ⟨.update, 5, sampleDoc⟩ none = .ok [] :=
  ⟨c4_vanished_record_is_dropped_silently.1 ⟨.update, 5, sampleDoc⟩ rfl,
   c4_vanished_record_is_dropped_silently.2 ⟨.update, 5, sampleDoc⟩ rfl⟩

/-- C7 counterexample: the connected acknowledgement of the variant 1
connection handler carries only a fixed message and the server timestamp;
its payload is independent of the socket id and contains no field holding
the connection identifier, against the claim that every variant includes
the unique identifier. -/
theorem c7_v1_ack_lacks_identifier :
    connectionAcks .v1 0 7 = connectionAcks .v1 0 99
    ∧ connectionAcks .v1 0 7 = [("connected", connectedPayloadV1 0)]
    ∧ hasSocketId (connectedPayloadV1 0) = false
    ∧ hasSocketId (connectedPayloadV2 0 7) = true := by
  decide

/-- C7 amended: every variant sends exactly one connected acknowledgement
per new connection, always carrying the server timestamp; variants 2 and
p0 additionally carry the socket id in the clientId field, while the
variant 1 payload contains no connection identifier. -/
theorem c7_one_connected_ack_with_timestamp :
    ∀ (v : Variant) (now sid : Nat),
      (connectionAcks v now sid).length = 1
      ∧ (∀ n p, (n, p) ∈ connectionAcks v now sid →
          n = "connected" ∧ ("timestamp", JVal.date now) ∈ p)
      ∧ (v ≠ .v1 → ∀ n p, (n, p) ∈ connectionAcks v now sid →
          ("clientId", JVal.socketId sid) ∈ p)
      ∧ (v = .v1 → ∀ n p, (n, p) ∈ connectionAcks v now sid →
          hasSocketId p = false) := by
  intro v now sid
  cases v with
  | v1 =>
      refine ⟨rfl, ?_, ?_, ?_⟩
      · intro n p h
        simp only [connectionAcks, List.mem_singleton,
          Prod.mk.injEq] at h
        obtain ⟨hn, hp⟩ := h
        subst hn
        subst hp
        simp [connectedPayloadV1]
      · intro h
        exact absurd rfl h
      · intro _ n p h
        simp only [connectionAcks, List.mem_singleton,
          Prod.mk.injEq] at h
        obtain ⟨hn, hp⟩ := h
        subst hp
        simp [connectedPayloadV1, hasSocketId]
  | v2 =>
      refine ⟨rfl, ?_, ?_, ?_⟩
      · intro n p h
        simp only [connectionAcks, List.mem_singleton,
          Prod.mk.injEq] at h
        obtain ⟨hn, hp⟩ := h
        subst hn
        subst hp
        simp [connectedPayloadV2]
      · intro _ n p h
        simp only [connectionAcks, List.mem_singleton,
          Prod.mk.injEq] at h
        obtain ⟨hn, hp⟩ := h
        subst hp
        simp [connectedPayloadV2]
      · intro h
        cases h
  | p0 =>
      refine ⟨rfl, ?_, ?_, ?_⟩
      · intro n p h
        simp only [connectionAcks, List.mem_singleton,
          Prod.mk.injEq] at h
        obtain ⟨hn, hp⟩ := h
        subst hn
        subst hp
        simp [connectedPayloadP0]
      · intro _ n p h
        simp only [connectionAcks, List.mem_singleton,
          Prod.mk.injEq] at h
        obtain ⟨hn, hp⟩ := h
        subst hp
        simp [connectedPayloadP0]
      · intro h
        cases h

/-- C7 witness: the amended theorem applied to variant 2 at a concrete
timestamp and socket id. -/
theorem c7_one_connected_ack_with_timestamp_witness :
    ("clientId", JVal.socketId 7) ∈ connectedPayloadV2 0 7 :=
  (c7_one_connected_ack_with_timestamp .v2 0 7).2.2.1 (by decide)
    "connected" (connectedPayloadV2 0 7) (by simp [connectionAcks])

/-- C8: with BASE_URL unset, the insert arm and the found-update arm of
the variant 1 schools change-stream handler evaluate the unbound name
req and throw a ReferenceError, and no run of the handler ever emits
school_created or school_updated through this path. -/
theorem c8_unset_base_url_throws_reference_error :
    ∀ (ch : ChangeEvent) (fetch : Option Doc),
      (ch.optype = .insert →
        schoolsFeedV1 none ch fetch = .error .referenceError)
      ∧ (∀ d, ch.optype = .update → fetch = some d →
          schoolsFeedV1 none ch fetch = .error .referenceError)
      ∧ (∀ l, schoolsFeedV1 none ch fetch = .ok l →
          ∀ p, ("school_created", p) ∉ l ∧ ("school_updated", p) ∉ l) := by
  intro ch fetch
  obtain ⟨t, i, d⟩ := ch
  refine ⟨?_, ?_, ?_⟩
  · intro h
    have ht : t = .insert := h
    subst ht
    rfl
  · intro e h hfetch
    have ht : t = .update := h
    subst ht
    subst hfetch
    rfl
  · intro l hok p
    cases t with
    | insert => cases hok
    | update =>
        cases fetch with
        | none =>
            simp only [schoolsFeedV1] at hok
            cases hok
            simp
        | some e => cases hok
    | delete =>
        simp only [schoolsFeedV1] at hok
        cases hok
        simp

/-- C8 witness: the theorem applied to a concrete school insert
notification with BASE_URL unset. -/
theorem c8_unset_base_url_throws_reference_error_witness :
    schoolsFeedV1 none ⟨.insert, 5, sampleDoc⟩ none =
      .error .referenceError :=
  (c8_unset_base_url_throws_reference_error ⟨.insert, 5, sampleDoc⟩
      none).1 rfl

/-- C10: the variant 1 school and review update routes evaluate the
trim calls on destructured body fields before any store interaction, so a
request omitting the school name, the review name, or the review comment
throws a TypeError that the catch block answers with status 500 — not a
400 validation response — with no broadcast and without the update ever
reaching findByIdAndUpdate. -/
theorem c10_put_missing_field_gives_500_and_no_update :
    (∀ (file : Option String) (baseUrl : String) (store : Option Doc),
        putSchoolV1 none file baseUrl store = ⟨500, [], none⟩)
    ∧ (∀ (rating comment : Option String) (store : Option Doc),
        putReviewV1 none rating comment store = ⟨500, [], none⟩)
    ∧ (∀ (name : String) (rating : Option String) (store : Option Doc),
        putReviewV1 (some name) rating none store = ⟨500, [], none⟩) :=
  ⟨fun _ _ _ => rfl, fun _ _ _ => rfl, fun _ _ _ => rfl⟩

/-- C5 counterexample: the claimed taxonomy assigns inquiry_updated to
the inquiry kind, but no emission site produces it — the inquiries
change streams handle only inserts, and the inquiry status update route
broadcasts nothing — so the emittable set for inquiries is not the
claimed three-element set. -/
theorem c5_inquiry_has_no_update_or_delete_events :
    "inquiry_updated" ∈ mutationEventNames .inquiry
    ∧ inquiriesFeedV1 ⟨.update, 5, sampleDoc⟩ = .ok []
    ∧ inquiriesFeedV1 ⟨.delete, 5, sampleDoc⟩ = .ok []
    ∧ directBroadcast .v2 .inquiry .updated "" 5 sampleDoc = none
    ∧ directBroadcast .v1 .inquiry .updated "" 5 sampleDoc = none
    ∧ "inquiry_updated" ∉ emittableNames .inquiry
    ∧ emittableNames .inquiry ≠ mutationEventNames .inquiry :=
  ⟨by decide, rfl, rfl, rfl, rfl, by decide, by decide⟩

/-- C5 amended: every event name either notification path can emit for a
kind lies in its emittable set — the full created, updated, deleted
triple for announcements, schools and reviews, but only inquiry_created
for inquiries — and each name of the emittable sets is reached at a
concrete input; no other mutation event name exists besides these and
the per-connection connected acknowledgement. -/
theorem c5_event_taxonomy_characterized :
    (∀ (v : Variant) (k : EntityKind) (env : Option String)
        (ch : ChangeEvent) (fetch : Option Doc) (n : String)
        (p : Payload),
        (n, p) ∈ emitsOf (feedEmits v k env ch fetch) →
          n ∈ emittableNames k)
    ∧ (∀ (v : Variant) (k : EntityKind) (op : Operation)
        (baseUrl : String) (oid : Nat) (doc : Doc) (n : String)
        (p : Payload),
        directBroadcast v k op baseUrl oid doc = some (n, p) →
          n ∈ emittableNames k)
    ∧ emittableNames .inquiry = ["inquiry_created"]
    ∧ emittableNames .announcement =
        ["announcement_created", "announcement_updated",
         "announcement_deleted"]
    ∧ emittableNames .school =
        ["school_created", "school_updated", "school_deleted"]
    ∧ emittableNames .review =
        ["review_created", "review_updated", "review_deleted"]
    ∧ emitsOf (feedEmits .v1 .inquiry none ⟨.insert, 5, sampleDoc⟩ none)
        = [("inquiry_created", .record sampleDoc)]
    ∧ emitsOf (feedEmits .v2 .announcement none ⟨.insert, 5, sampleDoc⟩
          none) = [("announcement_created", .record sampleDoc)]
    ∧ emitsOf (feedEmits .v2 .announcement none ⟨.update, 5, sampleDoc⟩
          (some sampleDoc))
        = [("announcement_updated", .record sampleDoc)]
    ∧ emitsOf (feedEmits .v2 .announcement none ⟨.delete, 5, sampleDoc⟩
          none) = [("announcement_deleted", .idOnly 5)]
    ∧ emitsOf (feedEmits .v2 .school none ⟨.insert, 5, sampleDoc⟩ none)
        = [("school_created", .record sampleDoc)]
    ∧ emitsOf (feedEmits .v2 .school none ⟨.update, 5, sampleDoc⟩
          (some sampleDoc)) = [("school_updated", .record sampleDoc)]
    ∧ emitsOf (feedEmits .v2 .school none ⟨.delete, 5, sampleDoc⟩ none)
        = [("school_deleted", .idOnly 5)]
    ∧ emitsOf (feedEmits .v2 .review none ⟨.insert, 5, sampleDoc⟩ none)
        = [("review_created", .record sampleDoc)]
    ∧ emitsOf (feedEmits .v2 .review none ⟨.update, 5, sampleDoc⟩
          (some sampleDoc)) = [("review_updated", .record sampleDoc)]
    ∧ emitsOf (feedEmits .v2 .review none ⟨.delete, 5, sampleDoc⟩ none)
        = [("review_deleted", .idOnly 5)] := by
  refine ⟨?_, ?_, by decide, by decide, by decide, by decide, by decide,
    by decide, by decide, by decide, by decide, by decide, by decide,
    by decide, by decide, by decide⟩
  · intro v k env ch fetch n p hmem
    obtain ⟨t, i, d⟩ := ch
    cases v <;> cases k <;> cases t <;> (try cases fetch) <;>
      (try cases hb : feedBaseUrl env) <;>
      simp_all [feedEmits, inquiriesFeedV1, announcementsFeedV1,
        announcementsFeedV2, schoolsFeedV1, schoolsFeedV2,
        reviewsFeedV1, reviewsFeedV2, emittableNames,
        mutationEventNames, eventName, emitsOf]
  · intro v k op baseUrl oid doc n p h
    cases v <;> cases k <;> cases op <;>
      simp_all [directBroadcast, emittableNames, mutationEventNames,
        eventName]

/-- C5 witness: the amended theorem applied to a concrete review delete
notification. -/
theorem c5_event_taxonomy_characterized_witness :
    "review_deleted" ∈ emittableNames .review :=
  c5_event_taxonomy_characterized.1 .v2 .review none
    ⟨.delete, 5, sampleDoc⟩ none "review_deleted" (.idOnly 5)
    (by decide)

/-- C6: on both notification paths, a delete emission carries exactly the
identifier-only payload of the affected document, and every insert or
update emission carries a full record payload — the document itself,
possibly with formatted image fields on top. -/
theorem c6_deleted_id_only_others_full_record :
    (∀ (v : Variant) (k : EntityKind) (env : Option String)
        (ch : ChangeEvent) (fetch : Option Doc) (n : String)
        (p : Payload),
        (n, p) ∈ emitsOf (feedEmits v k env ch fetch) →
          (ch.optype = .delete → p = .idOnly ch.docId)
          ∧ (ch.optype ≠ .delete → isFullRecord p = true))
    ∧ (∀ (v : Variant) (k : EntityKind) (op : Operation)
        (baseUrl : String) (oid : Nat) (doc : Doc) (n : String)
        (p : Payload),
        directBroadcast v k op baseUrl oid doc = some (n, p) →
          (op = .deleted → p = .idOnly oid)
          ∧ (op ≠ .deleted → isFullRecord p = true)) := by
  constructor
  · intro v k env ch fetch n p hmem
    obtain ⟨t, i, d⟩ := ch
    cases v <;> cases k <;> cases t <;> (try cases fetch) <;>
      (try cases hb : feedBaseUrl env) <;>
      simp_all [feedEmits, inquiriesFeedV1, announcementsFeedV1,
        announcementsFeedV2, schoolsFeedV1, schoolsFeedV2,
        reviewsFeedV1, reviewsFeedV2, emitsOf, isFullRecord]
  · intro v k op baseUrl oid doc n p h
    cases v <;> cases k <;> cases op <;>
      simp_all [directBroadcast, isFullRecord] <;>
      (obtain ⟨hn, hp⟩ := h
       subst hp
       rfl)

/-- C6 witness: the theorem applied to a concrete announcement delete
notification and a concrete review insert notification. -/
theorem c6_deleted_id_only_others_full_record_witness :
    Payload.idOnly 5 = Payload.idOnly 5
    ∧ isFullRecord (Payload.record sampleDoc) = true :=
  ⟨(c6_deleted_id_only_others_full_record.1 .v2 .announcement none
      ⟨.delete, 5, sampleDoc⟩ none "announcement_deleted"
      (.idOnly 5) (by decide)).1 rfl,
   (c6_deleted_id_only_others_full_record.1 .v2 .review none
      ⟨.insert, 5, sampleDoc⟩ none "review_created"
      (.record sampleDoc) (by decide)).2 (by decide)⟩

/-- C9: no mutation route broadcasts without a committed write. In the
shared route shape, a validation rejection answers 400, a throw before or
during the store operation answers 500, and a null store result answers
404, all without events; a nonempty event list forces a passed validation
and a successful store result. The same holds for the transcriptions of
POST and DELETE /api/announcements of variant 1. -/
theorem c9_no_event_without_committed_write :
    (∀ (v : Variant) (k : EntityKind) (op : Operation) (pre : PreStore)
        (store : Except String (Option Doc)) (baseUrl : String),
        (pre = .reject400 →
          runMutationRoute v k op pre store baseUrl = ⟨400, []⟩)
        ∧ (pre = .thrown →
            runMutationRoute v k op pre store baseUrl = ⟨500, []⟩)
        ∧ (∀ m, store = .error m → pre = .pass →
            runMutationRoute v k op pre store baseUrl = ⟨500, []⟩)
        ∧ (store = .ok none → pre = .pass →
            runMutationRoute v k op pre store baseUrl = ⟨404, []⟩)
        ∧ ((runMutationRoute v k op pre store baseUrl).events ≠ [] →
            pre = .pass ∧ ∃ d, store = .ok (some d)))
    ∧ (∀ (title date description : Option String)
        (image : Option ImageField) (m : String),
        postAnnouncementV1 title date description image (.error m)
            = ⟨400, []⟩
        ∨ postAnnouncementV1 title date description image (.error m)
            = ⟨500, []⟩)
    ∧ (∀ (title date description : Option String)
        (image : Option ImageField) (save : Except String Doc),
        (postAnnouncementV1 title date description image save).events
            ≠ [] →
          ∃ saved, save = .ok saved
            ∧ (postAnnouncementV1 title date description image
                save).status = 201)
    ∧ deleteAnnouncementV1 (.ok none) = ⟨404, []⟩
    ∧ (∀ m, deleteAnnouncementV1 (.error m) = ⟨500, []⟩)
    ∧ (∀ del, (deleteAnnouncementV1 del).events ≠ [] →
        ∃ d, del = .ok (some d)) := by
  refine ⟨?_, ?_, ?_, rfl, fun m => rfl, ?_⟩
  · intro v k op pre store baseUrl
    refine ⟨?_, ?_, ?_, ?_, ?_⟩
    · intro h
      subst h
      rfl
    · intro h
      subst h
      rfl
    · intro m h hpre
      subst h
      subst hpre
      rfl
    · intro h hpre
      subst h
      subst hpre
      rfl
    · intro h
      cases pre with
      | reject400 => exact absurd rfl h
      | thrown => exact absurd rfl h
      | pass =>
          refine ⟨rfl, ?_⟩
          cases store with
          | error m => exact absurd rfl h
          | ok o =>
              cases o with
              | none => exact absurd rfl h
              | some d => exact ⟨d, rfl⟩
  · intro title date description image m
    by_cases hv : (truthyS title && truthyS date && truthyS description
        && image.isSome) = true
    · cases himg : image.bind imageDataOf with
      | none => left; simp [postAnnouncementV1, hv, himg]
      | some x => right; simp [postAnnouncementV1, hv, himg]
    · left
      simp [postAnnouncementV1, hv]
  · intro title date description image save h
    cases save with
    | error m =>
        exfalso
        apply h
        by_cases hv : (truthyS title && truthyS date
            && truthyS description && image.isSome) = true
        · cases himg : image.bind imageDataOf with
          | none => simp [postAnnouncementV1, hv, himg]
          | some x => simp [postAnnouncementV1, hv, himg]
        · simp [postAnnouncementV1, hv]
    | ok saved =>
        refine ⟨saved, rfl, ?_⟩
        by_cases hv : (truthyS title && truthyS date
            && truthyS description && image.isSome) = true
        · cases himg : image.bind imageDataOf with
          | none =>
              exfalso
              apply h
              simp [postAnnouncementV1, hv, himg]
          | some x => simp [postAnnouncementV1, hv, himg]
        · exfalso
          apply h
          simp [postAnnouncementV1, hv]
  · intro del h
    cases del with
    | error m => exact absurd rfl h
    | ok o =>
        cases o with
        | none => exact absurd rfl h
        | some d => exact ⟨d, rfl⟩

/-- C9 witness: the theorem applied to concrete failing inputs — a
rejected validation, a missing-image announcement body with a successful
save, and a delete of a missing record. -/
theorem c9_no_event_without_committed_write_witness :
    runMutationRoute .v1 .announcement .created .reject400
        (.ok (some sampleDoc)) "" = ⟨400, []⟩
    ∧ deleteAnnouncementV1 (.ok none) = ⟨404, []⟩ :=
  ⟨(c9_no_event_without_committed_write.1 .v1 .announcement .created
      .reject400 (.ok (some sampleDoc)) "").1 rfl,
   c9_no_event_without_committed_write.2.2.2.1⟩

end WebServer
